import Mathlib

/-!
Verification of the wound-care simulation backend's evaluation-aggregation
and step-progression core (repository E20434/FYP_WoundCareSim).

The Python code is shallowly embedded:
* Python floats are modelled as exact rationals (`ℚ`); `round(x, 3)` is
  modelled by `round3` (round to the nearest multiple of 1/1000).
* Python dicts with statically known keys are modelled as structures; where
  the code performs a dynamic `dict.get` on the aggregation result, the
  result is rendered back into an explicit key/value form (`PyVal`) and the
  lookup is performed literally, so that accesses to absent keys behave as
  in Python (`None`, which is falsy).
* Functions that the repository calls but whose definitions are absent from
  the source tree (`check_readiness`, the `Step`/`next_step` state machine,
  and the lock/retry operations of the week-6 `SessionManager`) are modelled
  from the specification; each such definition is marked
  `Modelled from the spec:` in its doc comment.
-/

/-- app/utils/schema.py: `EvaluatorResponse` (pydantic model).  `confidence`
is declared with `ge=0.0, le=1.0`; the bound is carried as a hypothesis where
a theorem needs it. -/
structure EvaluatorResponse where
  agent_name : String
  step : String
  strengths : List String
  issues_detected : List String
  explanation : String
  verdict : String
  confidence : ℚ
deriving DecidableEq

/-- app/utils/scoring.py lines 8-12: `VERDICT_SCORE_MAP`, read through
`.get(ev.verdict, 0.0)` (line 50), so any unrecognized verdict maps to 0. -/
def VERDICT_SCORE_MAP (verdict : String) : ℚ :=
  if verdict = "Appropriate" then 1
  else if verdict = "Partially Appropriate" then 3/5
  else if verdict = "Inappropriate" then 0
  else 0

/-- Python's `round(x, 3)` on our rational model of floats: round to the
nearest multiple of 1/1000 (Python breaks ties to even; ties cannot change
any property proved here, and the same `round3` is used on both sides of
every statement about rounded values). -/
def round3 (q : ℚ) : ℚ := (round (1000 * q) : ℤ) / 1000

/-- app/utils/scoring.py lines 42-51: `score_single_evaluation`. -/
def score_single_evaluation (ev : EvaluatorResponse) : ℚ :=
  round3 (VERDICT_SCORE_MAP ev.verdict * ev.confidence)

/-- app/utils/scoring.py lines 18-39: `STEP_WEIGHTS`, read through
`STEP_WEIGHTS.get(current_step, {})` and `weights.get(agent_name, 0.0)`
(lines 67 and 75): unknown steps and unknown agents weigh 0. -/
def STEP_WEIGHTS (current_step : String) (agent_name : String) : ℚ :=
  if current_step = "HISTORY" then
    if agent_name = "CommunicationAgent" then 1/2
    else if agent_name = "KnowledgeAgent" then 2/5
    else if agent_name = "ClinicalAgent" then 1/10
    else 0
  else if current_step = "ASSESSMENT" then
    if agent_name = "CommunicationAgent" then 3/10
    else if agent_name = "KnowledgeAgent" then 7/10
    else if agent_name = "ClinicalAgent" then 0
    else 0
  else if current_step = "CLEANING" then
    if agent_name = "CommunicationAgent" then 1/10
    else if agent_name = "KnowledgeAgent" then 1/10
    else if agent_name = "ClinicalAgent" then 4/5
    else 0
  else if current_step = "DRESSING" then
    if agent_name = "CommunicationAgent" then 1/10
    else if agent_name = "KnowledgeAgent" then 1/10
    else if agent_name = "ClinicalAgent" then 4/5
    else 0
  else 0

/-- Assignment `d[k] = v` on a Python dict modelled as an ordered
association list: an existing key keeps its position and gets the new value,
a new key is appended. -/
def dictInsert {β : Type} (kvs : List (String × β)) (k : String) (v : β) :
    List (String × β) :=
  if kvs.any (fun p => p.fst == k) then
    kvs.map (fun p => if p.fst == k then (k, v) else p)
  else kvs ++ [(k, v)]

/-- app/utils/scoring.py lines 71-73: the `agent_scores` dict built by the
loop in `aggregate_scores` (`agent_scores[ev.agent_name] = score`). -/
def agent_scores (evaluations : List EvaluatorResponse) : List (String × ℚ) :=
  evaluations.foldl
    (fun acc ev => dictInsert acc ev.agent_name (score_single_evaluation ev)) []

/-- app/utils/scoring.py lines 69-76: the `composite_score` accumulator of
the loop in `aggregate_scores` (`composite_score += score * weight`),
before the final rounding. -/
def composite_raw (evaluations : List EvaluatorResponse) (current_step : String) : ℚ :=
  (evaluations.map
    (fun ev => score_single_evaluation ev * STEP_WEIGHTS current_step ev.agent_name)).sum

/-- Return value of app/utils/scoring.py `aggregate_scores` (lines 78-81). -/
structure ScoreResult where
  agent_scores : List (String × ℚ)
  composite_score : ℚ
deriving DecidableEq

/-- app/utils/scoring.py lines 54-81: `aggregate_scores`. -/
def aggregate_scores (evaluations : List EvaluatorResponse) (current_step : String) :
    ScoreResult :=
  { agent_scores := agent_scores evaluations
    composite_score := round3 (composite_raw evaluations current_step) }

/-- Return value of `check_readiness` as consumed by
app/core/coordinator.py lines 63-67 and 87-94. -/
structure ReadinessResult where
  ready_for_next_step : Bool
  threshold_used : ℚ
  blocking_issues : List String
deriving DecidableEq

/-- Modelled from the spec: `check_readiness` is imported by
app/core/coordinator.py from `app.utils.scoring` but is absent from the
source tree.  Spec 4.2: it applies a step-specific (or global default)
numeric threshold to the composite score, `ready = composite_score ≥
threshold`; when not ready it reports at least one human-readable reason,
and the threshold is always reported.  The threshold table itself is not
fixed by the spec, so it is taken as the parameter `th`. -/
def check_readiness (th : String → ℚ) (_evaluations : List EvaluatorResponse)
    (current_step : String) (composite_score : ℚ) : ReadinessResult :=
  if th current_step ≤ composite_score then
    { ready_for_next_step := true
      threshold_used := th current_step
      blocking_issues := [] }
  else
    { ready_for_next_step := false
      threshold_used := th current_step
      blocking_issues := ["Composite score below threshold"] }

/-- The `decision` dict of app/core/coordinator.py (lines 23-28 and 87-94). -/
structure Decision where
  ready_for_next_step : Bool
  safety_blocked : Bool
  blocking_issues : List String
  threshold_used : Option ℚ
deriving DecidableEq

/-- app/core/coordinator.py lines 72-82: the safety-override scan
(`current_step in ["CLEANING", "DRESSING"]` and some evaluation with
`agent_name == "ClinicalAgent"` and `verdict == "Inappropriate"`). -/
def safetyBlocked (evaluations : List EvaluatorResponse) (current_step : String) : Bool :=
  (current_step == "CLEANING" || current_step == "DRESSING") &&
    evaluations.any
      (fun ev => ev.agent_name == "ClinicalAgent" && ev.verdict == "Inappropriate")

/-- One entry of the `agent_feedback` dict (coordinator.py lines 40-46). -/
structure AgentFeedback where
  strengths : List String
  issues_detected : List String
  explanation : String
  verdict : String
  confidence : ℚ
deriving DecidableEq

/-- coordinator.py lines 39-46: the `agent_feedback` dict keyed by
`ev.agent_name` (later duplicates overwrite earlier ones). -/
def build_agent_feedback (evaluations : List EvaluatorResponse) :
    List (String × AgentFeedback) :=
  evaluations.foldl
    (fun acc ev => dictInsert acc ev.agent_name
      { strengths := ev.strengths
        issues_detected := ev.issues_detected
        explanation := ev.explanation
        verdict := ev.verdict
        confidence := ev.confidence }) []

/-- coordinator.py lines 48-50: `all_strengths`. -/
def all_strengths : List EvaluatorResponse → List String
  | [] => []
  | ev :: rest =>
      ev.strengths.map (fun s => "[" ++ ev.agent_name ++ "] " ++ s) ++ all_strengths rest

/-- coordinator.py lines 51-53: `all_issues`. -/
def all_issues : List EvaluatorResponse → List String
  | [] => []
  | ev :: rest =>
      ev.issues_detected.map (fun i => "[" ++ ev.agent_name ++ "] " ++ i) ++ all_issues rest

/-- The `summary` dict of the non-degenerate aggregate result
(coordinator.py lines 101-104); the degenerate branch returns an empty
dict instead, modelled as `Option.none` one level up. -/
structure Summary where
  strengths : List String
  issues_detected : List String
deriving DecidableEq

/-- The full dict returned by `Coordinator.aggregate` (coordinator.py
lines 17-29 and 99-109).  `summary` and `scores` are `Option` because the
degenerate branch puts empty dicts `{}` at those keys. -/
structure AggregateResult where
  step : String
  summary : Option Summary
  agent_feedback : List (String × AgentFeedback)
  combined_explanation : String
  scores : Option ScoreResult
  decision : Decision

/-- app/core/coordinator.py lines 7-109: `Coordinator.aggregate`.
`th` parameterizes the threshold table of the spec-modelled
`check_readiness`. -/
def Coordinator.aggregate (th : String → ℚ) (evaluations : List EvaluatorResponse)
    (current_step : String) : AggregateResult :=
  if evaluations.isEmpty then
    { step := current_step
      summary := Option.none
      agent_feedback := []
      combined_explanation := ""
      scores := Option.none
      decision :=
        { ready_for_next_step := false
          safety_blocked := false
          blocking_issues := ["No evaluations available"]
          threshold_used := Option.none } }
  else
    { step := current_step
      summary := Option.some
        { strengths := all_strengths evaluations
          issues_detected := all_issues evaluations }
      agent_feedback := build_agent_feedback evaluations
      combined_explanation := String.intercalate " "
        (evaluations.map (fun ev => "[" ++ ev.agent_name ++ "] " ++ ev.explanation))
      scores := Option.some (aggregate_scores evaluations current_step)
      decision :=
        { ready_for_next_step :=
            if safetyBlocked evaluations current_step then false
            else (check_readiness th evaluations current_step
              (aggregate_scores evaluations current_step).composite_score).ready_for_next_step
          safety_blocked := safetyBlocked evaluations current_step
          blocking_issues :=
            if safetyBlocked evaluations current_step then
              ["Unsafe clinical action detected during procedure"]
            else []
          threshold_used := Option.some
            (check_readiness th evaluations current_step
              (aggregate_scores evaluations current_step).composite_score).threshold_used } }

/-! ## Python-dict view of the aggregation result

session_routes.py reads the aggregation result with dynamic key lookups
(`evaluation.get("safety_blocked")`, `evaluation.get("ready_for_next_step",
False)`).  To model those lookups exactly as Python performs them, the
result structure is rendered back into an explicit key/value form and the
lookup walks the keys, returning `Option.none` for an absent key (Python's
`None`), which is falsy. -/

/-- A Python value as it appears in the dicts this backend builds. -/
inductive PyVal where
  | noneV : PyVal
  | bool : Bool → PyVal
  | num : ℚ → PyVal
  | str : String → PyVal
  | list : List PyVal → PyVal
  | dict : List (String × PyVal) → PyVal

/-- Key lookup in a dict modelled as an ordered association list. -/
def lookupKey : List (String × PyVal) → String → Option PyVal
  | [], _ => Option.none
  | (k', v) :: rest, k => if k' = k then Option.some v else lookupKey rest k

/-- `d.get(k)` on a Python dict value. -/
def PyVal.get : PyVal → String → Option PyVal
  | PyVal.dict kvs, k => lookupKey kvs k
  | _, _ => Option.none

/-- Python truthiness of a value. -/
def PyVal.truthy : PyVal → Bool
  | PyVal.noneV => false
  | PyVal.bool b => b
  | PyVal.num q => q != 0
  | PyVal.str s => s != ""
  | PyVal.list xs => !xs.isEmpty
  | PyVal.dict kvs => !kvs.isEmpty

/-- Python truthiness of the result of a `.get(k)` lookup (`None` for an
absent key is falsy). -/
def pyTruthy : Option PyVal → Bool
  | Option.none => false
  | Option.some v => v.truthy

/-- The `decision` dict (coordinator.py lines 87-94) in key/value form. -/
def Decision.toPy (d : Decision) : PyVal :=
  PyVal.dict
    [("ready_for_next_step", PyVal.bool d.ready_for_next_step),
     ("safety_blocked", PyVal.bool d.safety_blocked),
     ("blocking_issues", PyVal.list (d.blocking_issues.map PyVal.str)),
     ("threshold_used",
       match d.threshold_used with
       | Option.none => PyVal.noneV
       | Option.some t => PyVal.num t)]

/-- One `agent_feedback` entry (coordinator.py lines 40-46) in key/value
form. -/
def AgentFeedback.toPy (fb : AgentFeedback) : PyVal :=
  PyVal.dict
    [("strengths", PyVal.list (fb.strengths.map PyVal.str)),
     ("issues_detected", PyVal.list (fb.issues_detected.map PyVal.str)),
     ("explanation", PyVal.str fb.explanation),
     ("verdict", PyVal.str fb.verdict),
     ("confidence", PyVal.num fb.confidence)]

/-- The `aggregate_scores` result (scoring.py lines 78-81) in key/value
form. -/
def ScoreResult.toPy (sc : ScoreResult) : PyVal :=
  PyVal.dict
    [("agent_scores", PyVal.dict (sc.agent_scores.map (fun p => (p.fst, PyVal.num p.snd)))),
     ("composite_score", PyVal.num sc.composite_score)]

/-- The dict returned by `Coordinator.aggregate` (coordinator.py lines
17-29 and 99-109) in key/value form.  Its top-level keys are `step`,
`summary`, `agent_feedback`, `combined_explanation`, `scores` and
`decision`; the decision booleans live only inside the nested `decision`
dict. -/
def AggregateResult.toPy (r : AggregateResult) : PyVal :=
  PyVal.dict
    [("step", PyVal.str r.step),
     ("summary",
       match r.summary with
       | Option.none => PyVal.dict []
       | Option.some s => PyVal.dict
           [("strengths", PyVal.list (s.strengths.map PyVal.str)),
            ("issues_detected", PyVal.list (s.issues_detected.map PyVal.str))]),
     ("agent_feedback",
       PyVal.dict (r.agent_feedback.map (fun p => (p.fst, AgentFeedback.toPy p.snd)))),
     ("combined_explanation", PyVal.str r.combined_explanation),
     ("scores",
       match r.scores with
       | Option.none => PyVal.dict []
       | Option.some sc => ScoreResult.toPy sc),
     ("decision", Decision.toPy r.decision)]

/-! ## Session state machine and session manager -/

/-- Modelled from the spec: `app.core.state_machine` (`Step`, `next_step`)
is imported by session_routes.py and session_manager.py but is absent from
the source tree.  Spec 3: an ordered sequence HISTORY, ASSESSMENT,
CLEANING, DRESSING; DRESSING is terminal. -/
inductive Step where
  | HISTORY : Step
  | ASSESSMENT : Step
  | CLEANING : Step
  | DRESSING : Step
deriving DecidableEq

/-- The `.value` string of a `Step` member. -/
def Step.value : Step → String
  | Step.HISTORY => "HISTORY"
  | Step.ASSESSMENT => "ASSESSMENT"
  | Step.CLEANING => "CLEANING"
  | Step.DRESSING => "DRESSING"

/-- Modelled from the spec: `next_step` (spec 3 and 4.5).  `Option.none`
models the exception raised past the terminal step, which every caller in
the source catches. -/
def next_step : Step → Option Step
  | Step.HISTORY => Option.some Step.ASSESSMENT
  | Step.ASSESSMENT => Option.some Step.CLEANING
  | Step.CLEANING => Option.some Step.DRESSING
  | Step.DRESSING => Option.none

/-- One session record of app/services/session_manager.py (lines 34-44),
restricted to the fields the verified operations touch.  `locked`,
`lock_reason` and `attempts` are the week-6 fields that session_routes.py
reads and the spec describes (spec 3, 4.5); the in-src `create_session`
never sets them, which under Python's `session.get("locked")` reads as
absent-key `None`, modelled by the defaults `false` / 0.  Log entries are
abstracted to the step name they record. -/
structure Session where
  scenario_id : String
  student_id : String
  current_step : Step
  locked : Bool
  lock_reason : Option String
  attempts : Step → ℕ
  logs : List String
  last_evaluation : Option Decision

/-- The `SessionManager.sessions` dict, keyed by session id. -/
abbrev Mgr := List (String × Session)

/-- `self.sessions.get(session_id)` (session_manager.py line 57). -/
def getSession : Mgr → String → Option Session
  | [], _ => Option.none
  | (k, s) :: rest, sid => if k = sid then Option.some s else getSession rest sid

/-- In-place mutation of the session object stored under `sid`. -/
def updateSession : Mgr → String → Session → Mgr
  | [], _, _ => []
  | (k, s) :: rest, sid, s' =>
      if k = sid then (k, s') :: updateSession rest sid s'
      else (k, s) :: updateSession rest sid s'

/-- Modelled from the spec: `SessionManager.lock_session` is called by
session_routes.py (lines 126-129 and 152-155) but absent from the src
`SessionManager`.  Spec 4.5 `lock(session, reason)`: sets `locked = true`
and stores the reason. -/
def lock_session (s : Session) (reason : String) : Session :=
  { s with locked := true, lock_reason := Option.some reason }

/-- Modelled from the spec: `SessionManager.increment_attempt` is called by
session_routes.py (line 149) but absent from the src `SessionManager`.
Spec 4.5 `record_attempt`: increments the current step's retry counter,
does not change the step. -/
def increment_attempt (s : Session) : Session :=
  { s with attempts := fun st => if st = s.current_step then s.attempts st + 1 else s.attempts st }

/-- Modelled from the spec: `SessionManager.exceeded_max_attempts` is called
by session_routes.py (line 151) but absent from the src `SessionManager`.
Spec 4.5: true when the current step's retry counter reaches the fixed
cap 3. -/
def exceeded_max_attempts (s : Session) : Bool :=
  3 ≤ s.attempts s.current_step

/-- app/services/session_manager.py lines 122-143: `advance_step`.  It
looks the session up, computes `next_step` inside a `try` (the terminal
step's exception yields `None` with no state change), and stores the new
step.  It does not consult the lock flag and does not touch any retry
counter. -/
def advance_step (mgr : Mgr) (session_id : String) : Option String × Mgr :=
  match getSession mgr session_id with
  | Option.none => (Option.none, mgr)
  | Option.some session =>
      match next_step session.current_step with
      | Option.none => (Option.none, mgr)
      | Option.some ns =>
          (Option.some ns.value,
           updateSession mgr session_id { session with current_step := ns })

/-! ## The submit-step route -/

/-- Request body of `POST /session/step` (session_routes.py lines 31-35).
`user_input` drives only the best-effort RAG enrichment, which is external
and feedback-only, so it is not modelled. -/
structure EvalInput where
  session_id : String
  step : String
  evaluator_outputs : List EvaluatorResponse
deriving DecidableEq

/-- The JSON body of a non-error response of `session_step`
(session_routes.py lines 131-137, 157-163 and 170-184).
`ready_for_next_step` is `Option.none` for the two early locked responses,
which do not carry that key; `next_step_value` mirrors the optional
`next_step` key; `decision` carries the nested decision of the returned
`evaluation` payload. -/
structure StepResponse where
  session_id : String
  current_step : String
  locked : Bool
  ready_for_next_step : Option Bool
  message : Option String
  next_step_value : Option String
  decision : Decision
deriving DecidableEq

/-- Outcome of one `POST /session/step` call (session_routes.py lines
42-184): the three HTTPException guards, or a JSON response. -/
inductive RouteResult where
  | notFound : RouteResult
  | invalidStepOrder : String → RouteResult
  | lockedForbidden : RouteResult
  | ok : StepResponse → RouteResult
deriving DecidableEq

/-- app/api/session_routes.py lines 42-184: `session_step`, composed with
the immediate fate of each service call it makes.  Fidelity notes, keyed to
the source:
* line 99: the call `aggregate_evaluations(evaluator_outputs=..., step=...)`
  reaches `Coordinator.aggregate` (coordinator.py), which also persists the
  decision snapshot on the session (spec 4.6); the evaluation-metadata
  decoration is display-only and not modelled;
* line 125: `evaluation.get("safety_blocked")` is a top-level lookup on the
  aggregate dict, modelled literally through `AggregateResult.toPy`;
* line 142: likewise `evaluation.get("ready_for_next_step")`;
* lines 144-145: `advance_step(sid, next_s.value)` passes a second argument
  that the src `advance_step(self, session_id)` does not accept, so the call
  raises `TypeError`, the bare `except` catches it, `next_s = None`, and no
  session state changes on this branch;
* line 174: the final response reads `evaluation.get("ready_for_next_step",
  False)`, and line 175 `session.get("locked", False)` on the session object
  as mutated during the call. -/
def session_step (th : String → ℚ) (mgr : Mgr) (payload : EvalInput) :
    RouteResult × Mgr :=
  match getSession mgr payload.session_id with
  | Option.none => (RouteResult.notFound, mgr)
  | Option.some session =>
      if payload.step ≠ session.current_step.value then
        (RouteResult.invalidStepOrder session.current_step.value, mgr)
      else if session.locked then
        (RouteResult.lockedForbidden, mgr)
      else
        let evaluation :=
          Coordinator.aggregate th payload.evaluator_outputs session.current_step.value
        let session₂ : Session :=
          { session with
            last_evaluation := Option.some evaluation.decision
            logs := session.logs ++ [session.current_step.value] }
        let mgr₁ := updateSession mgr payload.session_id session₂
        if pyTruthy (evaluation.toPy.get "safety_blocked") then
          let mgr₂ := updateSession mgr₁ payload.session_id
            (lock_session session₂ "Unsafe clinical action detected")
          (RouteResult.ok
            { session_id := payload.session_id
              current_step := session.current_step.value
              locked := true
              ready_for_next_step := Option.none
              message := Option.some "Session locked due to unsafe clinical action."
              next_step_value := Option.none
              decision := evaluation.decision }, mgr₂)
        else if pyTruthy (evaluation.toPy.get "ready_for_next_step") then
          (RouteResult.ok
            { session_id := payload.session_id
              current_step := session.current_step.value
              locked := session₂.locked
              ready_for_next_step :=
                Option.some (pyTruthy (evaluation.toPy.get "ready_for_next_step"))
              message := Option.none
              next_step_value := Option.none
              decision := evaluation.decision }, mgr₁)
        else
          let session₃ := increment_attempt session₂
          let mgr₂ := updateSession mgr₁ payload.session_id session₃
          if exceeded_max_attempts session₃ then
            let mgr₃ := updateSession mgr₂ payload.session_id
              (lock_session session₃ "Maximum retries exceeded")
            (RouteResult.ok
              { session_id := payload.session_id
                current_step := session.current_step.value
                locked := true
                ready_for_next_step := Option.none
                message := Option.some "Maximum retry attempts exceeded."
                next_step_value := Option.none
                decision := evaluation.decision }, mgr₃)
          else
            (RouteResult.ok
              { session_id := payload.session_id
                current_step := session.current_step.value
                locked := session₃.locked
                ready_for_next_step :=
                  Option.some (pyTruthy (evaluation.toPy.get "ready_for_next_step"))
                message := Option.none
                next_step_value := Option.none
                decision := evaluation.decision }, mgr₂)

/-- The session object as it stands after the logging and attempt-recording
of one not-advancing `session_step` call (before any lock). -/
def post_attempt_session (th : String → ℚ) (session : Session)
    (v : List EvaluatorResponse) : Session :=
  increment_attempt
    { session with
      last_evaluation := Option.some
        (Coordinator.aggregate th v session.current_step.value).decision
      logs := session.logs ++ [session.current_step.value] }

/-- Fixture: a locked session sitting at HISTORY with nonzero retry
counters. -/
def sessionLockedAtHistory : Session :=
  { scenario_id := "sc", student_id := "st", current_step := Step.HISTORY,
    locked := true, lock_reason := Option.some "safety",
    attempts := fun st => if st = Step.ASSESSMENT then 5 else 2,
    logs := [], last_evaluation := Option.none }

/-- Fixture: an unlocked session at HISTORY. -/
def sessionW9open : Session :=
  { scenario_id := "sc", student_id := "st", current_step := Step.HISTORY,
    locked := false, lock_reason := Option.none, attempts := fun _ => 0,
    logs := [], last_evaluation := Option.none }

/-- Fixture: the same session, locked. -/
def sessionW9locked : Session :=
  { sessionW9open with locked := true, lock_reason := Option.some "safety" }

/-- Fixture: an unlocked session on CLEANING with zeroed retry counters. -/
def sessionAtCleaning : Session :=
  { scenario_id := "scn-1", student_id := "stu-1", current_step := Step.CLEANING,
    locked := false, lock_reason := Option.none, attempts := fun _ => 0,
    logs := [], last_evaluation := Option.none }

/-- The spec's CLEANING example verdict batch: communication and knowledge
Appropriate, clinical Inappropriate. -/
def cleaningVerdicts : List EvaluatorResponse :=
  [⟨"CommunicationAgent", "CLEANING", [], [], "", "Appropriate", 9/10⟩,
   ⟨"KnowledgeAgent", "CLEANING", [], [], "", "Appropriate", 4/5⟩,
   ⟨"ClinicalAgent", "CLEANING", [], [], "", "Inappropriate", 19/20⟩]

/-- Fixture: a fresh unlocked session at HISTORY with zeroed counters. -/
def sessionW8 : Session :=
  { scenario_id := "sc", student_id := "st", current_step := Step.HISTORY,
    locked := false, lock_reason := Option.none, attempts := fun _ => 0,
    logs := [], last_evaluation := Option.none }

/-- A verdict batch whose aggregated decision on HISTORY is not ready (score
0 below threshold 7/10) and carries no safety trigger. -/
def notReadyVerdicts : List EvaluatorResponse :=
  [⟨"CommunicationAgent", "HISTORY", [], [], "", "Inappropriate", 1⟩]

/-! ## Helper lemmas -/

lemma isEmpty_eq_false_of_ne_nil {α : Type} {l : List α} (h : l ≠ []) :
    l.isEmpty = false := by
  cases l with
  | nil => exact absurd rfl h
  | cons a t => rfl

/-- The aggregate result dict has no top-level key `safety_blocked`; the
lookup at session_routes.py line 125 therefore yields `None`. -/
lemma toPy_get_safety_blocked (r : AggregateResult) :
    r.toPy.get "safety_blocked" = Option.none := by
  simp [AggregateResult.toPy, PyVal.get, lookupKey]

/-- The aggregate result dict has no top-level key `ready_for_next_step`;
the lookups at session_routes.py lines 142 and 174 therefore yield `None`. -/
lemma toPy_get_ready (r : AggregateResult) :
    r.toPy.get "ready_for_next_step" = Option.none := by
  simp [AggregateResult.toPy, PyVal.get, lookupKey]

lemma getSession_updateSession (mgr : Mgr) (sid : String) (s' : Session) :
    getSession (updateSession mgr sid s') sid = (getSession mgr sid).map (fun _ => s') := by
  induction mgr with
  | nil => rfl
  | cons p rest ih =>
      obtain ⟨k, s⟩ := p
      by_cases h : k = sid
      · simp [updateSession, getSession, h]
      · simp [updateSession, getSession, h, ih]

lemma round3_nonneg {q : ℚ} (h : 0 ≤ q) : 0 ≤ round3 q := by
  have h1 : (0 : ℤ) ≤ round (1000 * q) := by
    rw [round_eq]
    exact Int.le_floor.mpr (by push_cast; linarith)
  unfold round3
  apply div_nonneg _ (by norm_num)
  exact_mod_cast h1

lemma round3_le_one {q : ℚ} (h : q ≤ 1) : round3 q ≤ 1 := by
  have h1 : round (1000 * q) ≤ 1000 := by
    rw [round_eq]
    have h2 : ⌊1000 * q + 1 / 2⌋ < 1001 :=
      Int.floor_lt.mpr (by push_cast; linarith)
    omega
  unfold round3
  rw [div_le_one (by norm_num)]
  exact_mod_cast h1

lemma VERDICT_SCORE_MAP_nonneg (v : String) : 0 ≤ VERDICT_SCORE_MAP v := by
  unfold VERDICT_SCORE_MAP
  split_ifs <;> norm_num

lemma VERDICT_SCORE_MAP_le_one (v : String) : VERDICT_SCORE_MAP v ≤ 1 := by
  unfold VERDICT_SCORE_MAP
  split_ifs <;> norm_num

lemma score_single_nonneg (ev : EvaluatorResponse) (h : 0 ≤ ev.confidence) :
    0 ≤ score_single_evaluation ev :=
  round3_nonneg (mul_nonneg (VERDICT_SCORE_MAP_nonneg _) h)

lemma score_single_le_one (ev : EvaluatorResponse) (h0 : 0 ≤ ev.confidence)
    (h1 : ev.confidence ≤ 1) : score_single_evaluation ev ≤ 1 := by
  apply round3_le_one
  calc VERDICT_SCORE_MAP ev.verdict * ev.confidence
      ≤ 1 * 1 := mul_le_mul (VERDICT_SCORE_MAP_le_one _) h1 h0 (by norm_num)
    _ = 1 := by norm_num

lemma STEP_WEIGHTS_nonneg (step a : String) : 0 ≤ STEP_WEIGHTS step a := by
  unfold STEP_WEIGHTS
  split_ifs <;> norm_num

lemma STEP_WEIGHTS_zero_of_unknown (step a : String)
    (h : a ∉ ({"CommunicationAgent", "KnowledgeAgent", "ClinicalAgent"} : Finset String)) :
    STEP_WEIGHTS step a = 0 := by
  simp only [Finset.mem_insert, Finset.mem_singleton, not_or] at h
  obtain ⟨h1, h2, h3⟩ := h
  unfold STEP_WEIGHTS
  split_ifs <;> simp_all

lemma STEP_WEIGHTS_total_le_one (step : String) :
    STEP_WEIGHTS step "CommunicationAgent" + STEP_WEIGHTS step "KnowledgeAgent" +
      STEP_WEIGHTS step "ClinicalAgent" ≤ 1 := by
  simp [STEP_WEIGHTS]
  split_ifs <;> norm_num

lemma sum_weights_le_one (step : String) (names : List String) (h : names.Nodup) :
    (names.map (STEP_WEIGHTS step)).sum ≤ 1 := by
  classical
  rw [← List.sum_toFinset _ h]
  have hsplit := Finset.sum_inter_add_sum_diff names.toFinset
    ({"CommunicationAgent", "KnowledgeAgent", "ClinicalAgent"} : Finset String)
    (STEP_WEIGHTS step)
  have hdiff : ∑ x ∈ names.toFinset \
      ({"CommunicationAgent", "KnowledgeAgent", "ClinicalAgent"} : Finset String),
      STEP_WEIGHTS step x = 0 :=
    Finset.sum_eq_zero (fun x hx =>
      STEP_WEIGHTS_zero_of_unknown step x (Finset.mem_sdiff.mp hx).2)
  have hle : ∑ x ∈ names.toFinset ∩
      ({"CommunicationAgent", "KnowledgeAgent", "ClinicalAgent"} : Finset String),
      STEP_WEIGHTS step x ≤
      ∑ x ∈ ({"CommunicationAgent", "KnowledgeAgent", "ClinicalAgent"} : Finset String),
      STEP_WEIGHTS step x :=
    Finset.sum_le_sum_of_subset_of_nonneg Finset.inter_subset_right
      (fun i _ _ => STEP_WEIGHTS_nonneg step i)
  have hA : ∑ x ∈ ({"CommunicationAgent", "KnowledgeAgent", "ClinicalAgent"} : Finset String),
      STEP_WEIGHTS step x =
      STEP_WEIGHTS step "CommunicationAgent" + STEP_WEIGHTS step "KnowledgeAgent" +
        STEP_WEIGHTS step "ClinicalAgent" := by
    rw [Finset.sum_insert (by decide), Finset.sum_insert (by decide), Finset.sum_singleton]
    ring
  have htot := STEP_WEIGHTS_total_le_one step
  linarith

lemma composite_raw_nonneg (evs : List EvaluatorResponse) (step : String)
    (hconf : ∀ ev ∈ evs, 0 ≤ ev.confidence) : 0 ≤ composite_raw evs step := by
  unfold composite_raw
  apply List.sum_nonneg
  intro x hx
  simp only [List.mem_map] at hx
  obtain ⟨ev, hev, rfl⟩ := hx
  exact mul_nonneg (score_single_nonneg ev (hconf ev hev)) (STEP_WEIGHTS_nonneg step ev.agent_name)

lemma composite_raw_le_one (evs : List EvaluatorResponse) (step : String)
    (hconf : ∀ ev ∈ evs, 0 ≤ ev.confidence ∧ ev.confidence ≤ 1)
    (hnd : (evs.map (fun ev => ev.agent_name)).Nodup) :
    composite_raw evs step ≤ 1 := by
  unfold composite_raw
  have h1 : (evs.map
        (fun ev => score_single_evaluation ev * STEP_WEIGHTS step ev.agent_name)).sum ≤
      (evs.map (fun ev => STEP_WEIGHTS step ev.agent_name)).sum := by
    apply List.sum_le_sum
    intro ev hev
    exact mul_le_of_le_one_left (STEP_WEIGHTS_nonneg step ev.agent_name)
      (score_single_le_one ev (hconf ev hev).1 (hconf ev hev).2)
  have h2 : (evs.map (fun ev => STEP_WEIGHTS step ev.agent_name)).sum =
      ((evs.map (fun ev => ev.agent_name)).map (STEP_WEIGHTS step)).sum := by
    rw [List.map_map]
    rfl
  have h3 := sum_weights_le_one step (evs.map (fun ev => ev.agent_name)) hnd
  linarith [h2 ▸ h1]

lemma dictInsert_mem {β : Type} {kvs : List (String × β)} {k : String} {v : β}
    {p : String × β} (h : p ∈ dictInsert kvs k v) : p ∈ kvs ∨ p = (k, v) := by
  unfold dictInsert at h
  split at h
  · simp only [List.mem_map] at h
    obtain ⟨q, hq, hheq⟩ := h
    split at hheq
    · exact Or.inr hheq.symm
    · exact Or.inl (hheq ▸ hq)
  · rcases List.mem_append.mp h with h1 | h1
    · exact Or.inl h1
    · exact Or.inr (by simpa using h1)

lemma foldl_dictInsert_mem (evs : List EvaluatorResponse) :
    ∀ (acc : List (String × ℚ)) (p : String × ℚ),
      p ∈ evs.foldl
        (fun acc ev => dictInsert acc ev.agent_name (score_single_evaluation ev)) acc →
      p ∈ acc ∨ ∃ ev ∈ evs, p.fst = ev.agent_name ∧ p.snd = score_single_evaluation ev := by
  induction evs with
  | nil =>
      intro acc p h
      exact Or.inl h
  | cons e rest ih =>
      intro acc p h
      simp only [List.foldl_cons] at h
      rcases ih _ p h with h1 | h1
      · rcases dictInsert_mem h1 with h2 | h2
        · exact Or.inl h2
        · refine Or.inr ⟨e, List.mem_cons_self e rest, ?_, ?_⟩ <;> simp [h2]
      · obtain ⟨ev, hev, hp⟩ := h1
        exact Or.inr ⟨ev, List.mem_cons_of_mem _ hev, hp⟩

lemma agent_scores_mem (evs : List EvaluatorResponse) (p : String × ℚ)
    (h : p ∈ agent_scores evs) :
    ∃ ev ∈ evs, p.fst = ev.agent_name ∧ p.snd = score_single_evaluation ev := by
  rcases foldl_dictInsert_mem evs [] p h with h1 | h1
  · simp at h1
  · exact h1

lemma safetyBlocked_iff (evs : List EvaluatorResponse) (step : String) :
    safetyBlocked evs step = true ↔
      ((step = "CLEANING" ∨ step = "DRESSING") ∧
        ∃ ev ∈ evs, ev.agent_name = "ClinicalAgent" ∧ ev.verdict = "Inappropriate") := by
  simp [safetyBlocked, List.any_eq_true]

lemma aggregate_decision_of_ne_nil (th : String → ℚ) (evs : List EvaluatorResponse)
    (step : String) (h : evs ≠ []) :
    (Coordinator.aggregate th evs step).decision =
      { ready_for_next_step :=
          if safetyBlocked evs step then false
          else (check_readiness th evs step
            (aggregate_scores evs step).composite_score).ready_for_next_step
        safety_blocked := safetyBlocked evs step
        blocking_issues :=
          if safetyBlocked evs step then
            ["Unsafe clinical action detected during procedure"]
          else []
        threshold_used := Option.some (check_readiness th evs step
          (aggregate_scores evs step).composite_score).threshold_used } := by
  unfold Coordinator.aggregate
  rw [if_neg (by simp [isEmpty_eq_false_of_ne_nil h])]

lemma check_readiness_ready (th : String → ℚ) (evs : List EvaluatorResponse)
    (step : String) (c : ℚ) :
    (check_readiness th evs step c).ready_for_next_step = true ↔ th step ≤ c := by
  unfold check_readiness
  split_ifs with h <;> simp [h]

lemma check_readiness_threshold (th : String → ℚ) (evs : List EvaluatorResponse)
    (step : String) (c : ℚ) :
    (check_readiness th evs step c).threshold_used = th step := by
  unfold check_readiness
  split_ifs <;> rfl

/-! ## Claim theorems: aggregation -/

/-- C1: for every non-empty verdict list and step, the aggregated decision
has `safety_blocked = true` iff the step is CLEANING or DRESSING and some
verdict has role ClinicalAgent with category Inappropriate; and whenever
`safety_blocked` is true, `ready_for_next_step` is false regardless of the
other verdicts. -/
theorem C1_safety_veto (th : String → ℚ) (evs : List EvaluatorResponse) (step : String)
    (h : evs ≠ []) :
    ((Coordinator.aggregate th evs step).decision.safety_blocked = true ↔
      ((step = "CLEANING" ∨ step = "DRESSING") ∧
        ∃ ev ∈ evs, ev.agent_name = "ClinicalAgent" ∧ ev.verdict = "Inappropriate")) ∧
    ((Coordinator.aggregate th evs step).decision.safety_blocked = true →
      (Coordinator.aggregate th evs step).decision.ready_for_next_step = false) := by
  rw [aggregate_decision_of_ne_nil th evs step h]
  refine ⟨by simpa using safetyBlocked_iff evs step, ?_⟩
  intro hsb
  dsimp only at hsb ⊢
  simp [hsb]

/-- Witness for C1 at the spec's CLEANING example shape. -/
theorem C1_safety_veto_witness :
    (([⟨"ClinicalAgent", "CLEANING", [], [], "", "Inappropriate", 19/20⟩] :
        List EvaluatorResponse) ≠ []) ∧
    (((Coordinator.aggregate (fun _ => 7/10)
        [⟨"ClinicalAgent", "CLEANING", [], [], "", "Inappropriate", 19/20⟩]
        "CLEANING").decision.safety_blocked = true ↔
      ((("CLEANING" : String) = "CLEANING" ∨ ("CLEANING" : String) = "DRESSING") ∧
        ∃ ev ∈ ([⟨"ClinicalAgent", "CLEANING", [], [], "", "Inappropriate", 19/20⟩] :
            List EvaluatorResponse),
          ev.agent_name = "ClinicalAgent" ∧ ev.verdict = "Inappropriate")) ∧
    ((Coordinator.aggregate (fun _ => 7/10)
        [⟨"ClinicalAgent", "CLEANING", [], [], "", "Inappropriate", 19/20⟩]
        "CLEANING").decision.safety_blocked = true →
      (Coordinator.aggregate (fun _ => 7/10)
        [⟨"ClinicalAgent", "CLEANING", [], [], "", "Inappropriate", 19/20⟩]
        "CLEANING").decision.ready_for_next_step = false)) :=
  ⟨by simp, C1_safety_veto _ _ _ (by simp)⟩

/-- C5: the empty verdict list yields exactly the degenerate decision, in
particular never `ready_for_next_step = true`. -/
theorem C5_empty_degenerate (th : String → ℚ) (step : String) :
    (Coordinator.aggregate th [] step).decision =
      { ready_for_next_step := false
        safety_blocked := false
        blocking_issues := ["No evaluations available"]
        threshold_used := Option.none } := rfl

/-- C6: with a non-empty verdict list and no safety trigger, the decision is
ready iff the composite score reaches the threshold for the step, and the
threshold used is reported in the decision. -/
theorem C6_readiness_threshold (th : String → ℚ) (evs : List EvaluatorResponse)
    (step : String) (h : evs ≠ []) (hs : safetyBlocked evs step = false) :
    ((Coordinator.aggregate th evs step).decision.ready_for_next_step = true ↔
      th step ≤ (aggregate_scores evs step).composite_score) ∧
    (Coordinator.aggregate th evs step).decision.threshold_used =
      Option.some (th step) := by
  rw [aggregate_decision_of_ne_nil th evs step h]
  dsimp only
  rw [hs]
  constructor
  · simpa using check_readiness_ready th evs step (aggregate_scores evs step).composite_score
  · simp [check_readiness_threshold]

/-- Witness for C6: a single Appropriate communication verdict on HISTORY
with threshold 2/5 is ready. -/
theorem C6_readiness_threshold_witness :
    (([⟨"CommunicationAgent", "HISTORY", [], [], "", "Appropriate", 1⟩] :
        List EvaluatorResponse) ≠ []) ∧
    safetyBlocked [⟨"CommunicationAgent", "HISTORY", [], [], "", "Appropriate", 1⟩]
      "HISTORY" = false ∧
    (((Coordinator.aggregate (fun _ => 2/5)
        [⟨"CommunicationAgent", "HISTORY", [], [], "", "Appropriate", 1⟩]
        "HISTORY").decision.ready_for_next_step = true ↔
      (2/5 : ℚ) ≤ (aggregate_scores
        [⟨"CommunicationAgent", "HISTORY", [], [], "", "Appropriate", 1⟩]
        "HISTORY").composite_score) ∧
    (Coordinator.aggregate (fun _ => 2/5)
        [⟨"CommunicationAgent", "HISTORY", [], [], "", "Appropriate", 1⟩]
        "HISTORY").decision.threshold_used = Option.some (2/5 : ℚ)) :=
  ⟨by simp, by simp [safetyBlocked], C6_readiness_threshold _ _ _ (by simp) (by simp [safetyBlocked])⟩

/-- C3 counterexample: on step HISTORY with a single Inappropriate verdict
(no safety trigger, score below threshold), the aggregator returns
`ready_for_next_step = false` together with an empty `blocking_issues`
list, which the claim says is never produced. -/
theorem C3_blocking_issues_cx :
    (Coordinator.aggregate (fun _ => 7/10)
      [⟨"CommunicationAgent", "HISTORY", [], [], "", "Inappropriate", 1⟩]
      "HISTORY").decision.ready_for_next_step = false ∧
    (Coordinator.aggregate (fun _ => 7/10)
      [⟨"CommunicationAgent", "HISTORY", [], [], "", "Inappropriate", 1⟩]
      "HISTORY").decision.blocking_issues = [] := by
  constructor
  · simp [Coordinator.aggregate, safetyBlocked, check_readiness, aggregate_scores,
      composite_raw, score_single_evaluation, VERDICT_SCORE_MAP, STEP_WEIGHTS, round3]
    rw [if_neg (by norm_num)]
  · simp [Coordinator.aggregate, safetyBlocked, check_readiness, aggregate_scores,
      composite_raw, score_single_evaluation, VERDICT_SCORE_MAP, STEP_WEIGHTS, round3]

/-- C3 (amended): the decision's `blocking_issues` are exactly the safety
reasons — the fixed unsafe-action message when the safety override fires
and the empty list otherwise; readiness reasons are not merged in, so a
not-ready decision without safety trigger carries no blocking issue. -/
theorem C3_blocking_issues_amended (th : String → ℚ) (evs : List EvaluatorResponse)
    (step : String) (h : evs ≠ []) :
    (Coordinator.aggregate th evs step).decision.blocking_issues =
      (if safetyBlocked evs step then
        ["Unsafe clinical action detected during procedure"]
      else []) ∧
    ((Coordinator.aggregate th evs step).decision.safety_blocked = false →
      (Coordinator.aggregate th evs step).decision.blocking_issues = []) := by
  rw [aggregate_decision_of_ne_nil th evs step h]
  refine ⟨rfl, ?_⟩
  intro hsb
  dsimp only at hsb ⊢
  simp [hsb]

/-- Witness for C3 (amended): the safety-triggering example carries exactly
the fixed unsafe-action message. -/
theorem C3_blocking_issues_amended_witness :
    (([⟨"ClinicalAgent", "CLEANING", [], [], "", "Inappropriate", 1⟩] :
        List EvaluatorResponse) ≠ []) ∧
    ((Coordinator.aggregate (fun _ => 7/10)
        [⟨"ClinicalAgent", "CLEANING", [], [], "", "Inappropriate", 1⟩]
        "CLEANING").decision.blocking_issues =
      (if safetyBlocked [⟨"ClinicalAgent", "CLEANING", [], [], "", "Inappropriate", 1⟩]
          "CLEANING" then
        ["Unsafe clinical action detected during procedure"]
      else []) ∧
    ((Coordinator.aggregate (fun _ => 7/10)
        [⟨"ClinicalAgent", "CLEANING", [], [], "", "Inappropriate", 1⟩]
        "CLEANING").decision.safety_blocked = false →
      (Coordinator.aggregate (fun _ => 7/10)
        [⟨"ClinicalAgent", "CLEANING", [], [], "", "Inappropriate", 1⟩]
        "CLEANING").decision.blocking_issues = [])) :=
  ⟨by simp, C3_blocking_issues_amended _ _ _ (by simp)⟩

/-- C4 counterexample: two verdicts sharing the agent name ClinicalAgent on
CLEANING, each with confidence 1 (inside [0,1]), give composite score
8/5 > 1: the composite is not always in [0,1]. -/
theorem C4_composite_range_cx :
    (∀ ev ∈ ([⟨"ClinicalAgent", "CLEANING", [], [], "", "Appropriate", 1⟩,
              ⟨"ClinicalAgent", "CLEANING", [], [], "", "Appropriate", 1⟩] :
        List EvaluatorResponse), 0 ≤ ev.confidence ∧ ev.confidence ≤ 1) ∧
    1 < (aggregate_scores
      [⟨"ClinicalAgent", "CLEANING", [], [], "", "Appropriate", 1⟩,
       ⟨"ClinicalAgent", "CLEANING", [], [], "", "Appropriate", 1⟩]
      "CLEANING").composite_score := by
  constructor
  · intro ev hev
    rcases List.mem_cons.mp hev with rfl | hev2
    · norm_num
    rcases List.mem_cons.mp hev2 with rfl | hev3
    · norm_num
    · simp at hev3
  · simp [aggregate_scores, composite_raw, score_single_evaluation, VERDICT_SCORE_MAP,
      STEP_WEIGHTS, round3]
    norm_num [round_eq]

/-- C4 (amended): for verdict lists with pairwise distinct agent names and
confidences in [0,1], the composite score lies in [0,1]; and every
per-agent score recorded equals the verdict's base value times its
confidence, rounded to 3 decimals. -/
theorem C4_scores (evs : List EvaluatorResponse) (step : String)
    (hconf : ∀ ev ∈ evs, 0 ≤ ev.confidence ∧ ev.confidence ≤ 1)
    (hnd : (evs.map (fun ev => ev.agent_name)).Nodup) :
    (0 ≤ (aggregate_scores evs step).composite_score ∧
      (aggregate_scores evs step).composite_score ≤ 1) ∧
    ∀ p ∈ (aggregate_scores evs step).agent_scores,
      ∃ ev ∈ evs, p.fst = ev.agent_name ∧
        p.snd = round3 (VERDICT_SCORE_MAP ev.verdict * ev.confidence) := by
  refine ⟨⟨?_, ?_⟩, ?_⟩
  · exact round3_nonneg (composite_raw_nonneg evs step (fun ev hm => (hconf ev hm).1))
  · exact round3_le_one (composite_raw_le_one evs step hconf hnd)
  · intro p hp
    exact agent_scores_mem evs p hp

/-- Witness for C4 (amended) at the spec's three-role CLEANING example. -/
theorem C4_scores_witness :
    (∀ ev ∈ ([⟨"CommunicationAgent", "CLEANING", [], [], "", "Appropriate", 9/10⟩,
              ⟨"KnowledgeAgent", "CLEANING", [], [], "", "Appropriate", 4/5⟩,
              ⟨"ClinicalAgent", "CLEANING", [], [], "", "Inappropriate", 19/20⟩] :
        List EvaluatorResponse), 0 ≤ ev.confidence ∧ ev.confidence ≤ 1) ∧
    (0 ≤ (aggregate_scores
        [⟨"CommunicationAgent", "CLEANING", [], [], "", "Appropriate", 9/10⟩,
         ⟨"KnowledgeAgent", "CLEANING", [], [], "", "Appropriate", 4/5⟩,
         ⟨"ClinicalAgent", "CLEANING", [], [], "", "Inappropriate", 19/20⟩]
        "CLEANING").composite_score ∧
      (aggregate_scores
        [⟨"CommunicationAgent", "CLEANING", [], [], "", "Appropriate", 9/10⟩,
         ⟨"KnowledgeAgent", "CLEANING", [], [], "", "Appropriate", 4/5⟩,
         ⟨"ClinicalAgent", "CLEANING", [], [], "", "Inappropriate", 19/20⟩]
        "CLEANING").composite_score ≤ 1) ∧
    ∀ p ∈ (aggregate_scores
        [⟨"CommunicationAgent", "CLEANING", [], [], "", "Appropriate", 9/10⟩,
         ⟨"KnowledgeAgent", "CLEANING", [], [], "", "Appropriate", 4/5⟩,
         ⟨"ClinicalAgent", "CLEANING", [], [], "", "Inappropriate", 19/20⟩]
        "CLEANING").agent_scores,
      ∃ ev ∈ ([⟨"CommunicationAgent", "CLEANING", [], [], "", "Appropriate", 9/10⟩,
               ⟨"KnowledgeAgent", "CLEANING", [], [], "", "Appropriate", 4/5⟩,
               ⟨"ClinicalAgent", "CLEANING", [], [], "", "Inappropriate", 19/20⟩] :
          List EvaluatorResponse),
        p.fst = ev.agent_name ∧
        p.snd = round3 (VERDICT_SCORE_MAP ev.verdict * ev.confidence) := by
  have hconf : ∀ ev ∈ ([⟨"CommunicationAgent", "CLEANING", [], [], "", "Appropriate", 9/10⟩,
      ⟨"KnowledgeAgent", "CLEANING", [], [], "", "Appropriate", 4/5⟩,
      ⟨"ClinicalAgent", "CLEANING", [], [], "", "Inappropriate", 19/20⟩] :
      List EvaluatorResponse), 0 ≤ ev.confidence ∧ ev.confidence ≤ 1 := by
    intro ev hev
    rcases List.mem_cons.mp hev with rfl | hev2
    · norm_num
    rcases List.mem_cons.mp hev2 with rfl | hev3
    · norm_num
    rcases List.mem_cons.mp hev3 with rfl | hev4
    · norm_num
    · simp at hev4
  exact ⟨hconf, C4_scores _ _ hconf (by simp)⟩

/-- C10: an evaluator verdict whose category string is not one of the three
recognized values is scored 0, like Inappropriate, rather than rejected. -/
theorem C10_unrecognized_verdict_zero (ev : EvaluatorResponse)
    (h : ev.verdict ∉ (["Appropriate", "Partially Appropriate", "Inappropriate"] :
      List String)) :
    score_single_evaluation ev = 0 := by
  simp only [List.mem_cons, List.not_mem_nil, or_false, not_or] at h
  obtain ⟨h1, h2, h3⟩ := h
  unfold score_single_evaluation VERDICT_SCORE_MAP
  rw [if_neg h1, if_neg h2, if_neg h3, zero_mul]
  simp [round3]

/-- Witness for C10: the lowercase misspelling `appropriate` scores 0. -/
theorem C10_unrecognized_verdict_zero_witness :
    (("appropriate" : String) ∉ (["Appropriate", "Partially Appropriate", "Inappropriate"] :
      List String)) ∧
    score_single_evaluation ⟨"ClinicalAgent", "CLEANING", [], [], "", "appropriate", 1/2⟩ = 0 :=
  ⟨by decide, C10_unrecognized_verdict_zero _ (by decide)⟩

/-! ## Route-level helper lemmas -/

lemma pyTruthy_none : pyTruthy Option.none = false := rfl

lemma updateSession_updateSession (mgr : Mgr) (sid : String) (a b : Session) :
    updateSession (updateSession mgr sid a) sid b = updateSession mgr sid b := by
  induction mgr with
  | nil => rfl
  | cons p rest ih =>
      obtain ⟨k, s⟩ := p
      by_cases hk : k = sid <;> simp [updateSession, hk, ih]

lemma post_attempt_locked (th : String → ℚ) (session : Session)
    (v : List EvaluatorResponse) :
    (post_attempt_session th session v).locked = session.locked := rfl

lemma post_attempt_current_step (th : String → ℚ) (session : Session)
    (v : List EvaluatorResponse) :
    (post_attempt_session th session v).current_step = session.current_step := rfl

lemma post_attempt_attempts (th : String → ℚ) (session : Session)
    (v : List EvaluatorResponse) :
    (post_attempt_session th session v).attempts
      (post_attempt_session th session v).current_step =
      session.attempts session.current_step + 1 := by
  simp [post_attempt_session, increment_attempt]

lemma exceeded_max_attempts_eq (s : Session) :
    exceeded_max_attempts s = decide (3 ≤ s.attempts s.current_step) := rfl

lemma session_step_snd_of_unlocked (th : String → ℚ) (mgr : Mgr) (sid : String)
    (session : Session) (v : List EvaluatorResponse) (stepStr : String)
    (h : getSession mgr sid = Option.some session) (hl : session.locked = false)
    (hstep : stepStr = session.current_step.value) :
    (session_step th mgr ⟨sid, stepStr, v⟩).snd =
      if exceeded_max_attempts (post_attempt_session th session v) then
        updateSession mgr sid
          (lock_session (post_attempt_session th session v) "Maximum retries exceeded")
      else updateSession mgr sid (post_attempt_session th session v) := by
  subst hstep
  simp only [session_step, h]
  simp only [toPy_get_safety_blocked, toPy_get_ready, pyTruthy]
  simp [hl, updateSession_updateSession, post_attempt_session]
  rw [apply_ite Prod.snd]

lemma getSession_after_step (th : String → ℚ) (mgr : Mgr) (sid : String)
    (session : Session) (v : List EvaluatorResponse) (stepStr : String)
    (h : getSession mgr sid = Option.some session) (hl : session.locked = false)
    (hstep : stepStr = session.current_step.value) :
    getSession (session_step th mgr ⟨sid, stepStr, v⟩).snd sid =
      Option.some
        (if exceeded_max_attempts (post_attempt_session th session v) then
          lock_session (post_attempt_session th session v) "Maximum retries exceeded"
        else post_attempt_session th session v) := by
  rw [session_step_snd_of_unlocked th mgr sid session v stepStr h hl hstep]
  by_cases hex : exceeded_max_attempts (post_attempt_session th session v) = true
  · simp [hex, getSession_updateSession, h]
  · simp only [Bool.not_eq_true] at hex
    simp [hex, getSession_updateSession, h]

/-! ## Claim theorems: session state machine and route -/

/-- C7 counterexample: `advance_step` on a locked session at HISTORY
advances to ASSESSMENT anyway, and no retry counter is reset to 0 — where
the claim requires a silent no-op for locked sessions and a counter
reset. -/
theorem C7_advance_locked_cx :
    (advance_step [("s7", sessionLockedAtHistory)] "s7").fst =
      Option.some "ASSESSMENT" ∧
    (getSession (advance_step [("s7", sessionLockedAtHistory)] "s7").snd "s7").map
      (fun s => s.current_step) = Option.some Step.ASSESSMENT ∧
    (getSession (advance_step [("s7", sessionLockedAtHistory)] "s7").snd "s7").map
      (fun s => s.locked) = Option.some true ∧
    (getSession (advance_step [("s7", sessionLockedAtHistory)] "s7").snd "s7").map
      (fun s => s.attempts Step.ASSESSMENT) = Option.some 5 ∧
    (getSession (advance_step [("s7", sessionLockedAtHistory)] "s7").snd "s7").map
      (fun s => s.attempts Step.HISTORY) = Option.some 2 :=
  ⟨rfl, rfl, rfl, rfl, rfl⟩

/-- C7 (amended): `advance_step` moves the current step to its successor in
HISTORY → ASSESSMENT → CLEANING → DRESSING regardless of the session's lock
state, leaves every retry counter unchanged, and returns null as a silent
no-op only when the session is unknown or already at the terminal step
DRESSING. -/
theorem C7_advance_step_amended (mgr : Mgr) (sid : String) :
    (getSession mgr sid = Option.none → advance_step mgr sid = (Option.none, mgr)) ∧
    (∀ session, getSession mgr sid = Option.some session →
      (session.current_step = Step.DRESSING →
        advance_step mgr sid = (Option.none, mgr)) ∧
      (∀ ns, next_step session.current_step = Option.some ns →
        (advance_step mgr sid).fst = Option.some ns.value ∧
        (advance_step mgr sid).snd =
          updateSession mgr sid { session with current_step := ns })) := by
  refine ⟨?_, ?_⟩
  · intro h
    simp [advance_step, h]
  · intro session hs
    refine ⟨?_, ?_⟩
    · intro hd
      simp [advance_step, hs, hd, next_step]
    · intro ns hns
      constructor <;> simp [advance_step, hs, hns]

/-- Witness for C7 (amended): an unlocked session at CLEANING advances to
DRESSING. -/
theorem C7_advance_step_amended_witness :
    (advance_step
      [("w7", { scenario_id := "sc", student_id := "st",
                current_step := Step.CLEANING, locked := false,
                lock_reason := Option.none, attempts := fun _ => 0,
                logs := [], last_evaluation := Option.none })] "w7").fst =
      Option.some "DRESSING" :=
  (((C7_advance_step_amended
      [("w7", { scenario_id := "sc", student_id := "st",
                current_step := Step.CLEANING, locked := false,
                lock_reason := Option.none, attempts := fun _ => 0,
                logs := [], last_evaluation := Option.none })] "w7").2
    _ rfl).2 Step.DRESSING rfl).1

/-- C9: the submit-step guards, in the order the route applies them: an
unknown session id fails with NotFound and mutates nothing; a submitted
step different from the session's current step fails with InvalidStepOrder
before any evaluation work and mutates nothing; a locked session (with a
matching step) short-circuits with the locked status, computing no new
decision and mutating nothing. -/
theorem C9_session_step_guards (th : String → ℚ) (mgr : Mgr) (payload : EvalInput) :
    (getSession mgr payload.session_id = Option.none →
      session_step th mgr payload = (RouteResult.notFound, mgr)) ∧
    (∀ s, getSession mgr payload.session_id = Option.some s →
      payload.step ≠ s.current_step.value →
      session_step th mgr payload =
        (RouteResult.invalidStepOrder s.current_step.value, mgr)) ∧
    (∀ s, getSession mgr payload.session_id = Option.some s →
      payload.step = s.current_step.value → s.locked = true →
      session_step th mgr payload = (RouteResult.lockedForbidden, mgr)) := by
  refine ⟨?_, ?_, ?_⟩
  · intro h
    simp [session_step, h]
  · intro s hs hne
    simp only [session_step, hs]
    rw [if_pos hne]
  · intro s hs heq hl
    simp only [session_step, hs]
    rw [if_neg (by simp [heq]), if_pos hl]

/-- Witness for C9: each guard observed on a concrete store. -/
theorem C9_session_step_guards_witness :
    session_step (fun _ => 7/10) [] ⟨"missing", "HISTORY", []⟩ =
      (RouteResult.notFound, []) ∧
    session_step (fun _ => 7/10) [("w9", sessionW9open)] ⟨"w9", "CLEANING", []⟩ =
      (RouteResult.invalidStepOrder "HISTORY", [("w9", sessionW9open)]) ∧
    session_step (fun _ => 7/10) [("w9", sessionW9locked)] ⟨"w9", "HISTORY", []⟩ =
      (RouteResult.lockedForbidden, [("w9", sessionW9locked)]) :=
  ⟨(C9_session_step_guards (fun _ => 7/10) [] ⟨"missing", "HISTORY", []⟩).1 rfl,
   ((C9_session_step_guards (fun _ => 7/10) [("w9", sessionW9open)]
      ⟨"w9", "CLEANING", []⟩).2.1 sessionW9open rfl (by decide)),
   ((C9_session_step_guards (fun _ => 7/10) [("w9", sessionW9locked)]
      ⟨"w9", "HISTORY", []⟩).2.2 sessionW9locked rfl rfl rfl)⟩

/-- C2 (observed divergence): on the spec's CLEANING example the aggregated
decision has `safety_blocked = true`, yet the submit-step call does not lock
the session — the route looks up `safety_blocked` at the top level of the
evaluation dict, where the coordinator nests it under `decision`, so the
lookup yields None and the safety branch never runs.  The call instead
records a retry attempt and returns an ordinary non-locked response. -/
theorem C2_safety_lock_dropped :
    (Coordinator.aggregate (fun _ => 7/10) cleaningVerdicts
      "CLEANING").decision.safety_blocked = true ∧
    (Coordinator.aggregate (fun _ => 7/10) cleaningVerdicts
      "CLEANING").toPy.get "safety_blocked" = Option.none ∧
    (getSession (session_step (fun _ => 7/10) [("s1", sessionAtCleaning)]
        ⟨"s1", "CLEANING", cleaningVerdicts⟩).snd "s1").map (fun s => s.locked) =
      Option.some false ∧
    (getSession (session_step (fun _ => 7/10) [("s1", sessionAtCleaning)]
        ⟨"s1", "CLEANING", cleaningVerdicts⟩).snd "s1").map
      (fun s => s.attempts Step.CLEANING) = Option.some 1 ∧
    (match (session_step (fun _ => 7/10) [("s1", sessionAtCleaning)]
        ⟨"s1", "CLEANING", cleaningVerdicts⟩).fst with
      | RouteResult.ok r => Option.some r.locked
      | _ => Option.none) = Option.some false := by
  have hsb : (Coordinator.aggregate (fun _ => 7/10) cleaningVerdicts
      "CLEANING").decision.safety_blocked = true := by
    simp [Coordinator.aggregate, safetyBlocked, cleaningVerdicts]
  have hget := toPy_get_safety_blocked
    (Coordinator.aggregate (fun _ => 7/10) cleaningVerdicts "CLEANING")
  have hmgr : getSession [("s1", sessionAtCleaning)] "s1" =
      Option.some sessionAtCleaning := rfl
  have hx : exceeded_max_attempts
      (post_attempt_session (fun _ => 7/10) sessionAtCleaning cleaningVerdicts) = false := by
    rw [exceeded_max_attempts_eq, post_attempt_attempts]
    decide
  have hs := getSession_after_step (fun _ => 7/10) [("s1", sessionAtCleaning)] "s1"
    sessionAtCleaning cleaningVerdicts "CLEANING" hmgr rfl rfl
  rw [hx] at hs
  simp only [Bool.false_eq_true, if_false] at hs
  refine ⟨hsb, hget, ?_, ?_, ?_⟩
  · rw [hs]
    simp [post_attempt_locked, sessionAtCleaning]
  · rw [hs]
    simp [post_attempt_session, increment_attempt, sessionAtCleaning]
  · simp only [session_step, hmgr, toPy_get_safety_blocked, toPy_get_ready, pyTruthy]
    simp [post_attempt_session, sessionAtCleaning, increment_attempt, Step.value,
      exceeded_max_attempts]

lemma lock_session_locked (s : Session) (r : String) :
    (lock_session s r).locked = true := rfl

lemma lock_session_reason (s : Session) (r : String) :
    (lock_session s r).lock_reason = Option.some r := rfl

lemma lock_session_attempts (s : Session) (r : String) :
    (lock_session s r).attempts = s.attempts := rfl

lemma lock_session_current_step (s : Session) (r : String) :
    (lock_session s r).current_step = s.current_step := rfl

lemma exceeded_lock_session (s : Session) (r : String) :
    exceeded_max_attempts (lock_session s r) = exceeded_max_attempts s := rfl

/-- C8: starting from an unlocked session whose current step's retry
counter is 0, three consecutive submit-step calls on that step whose
aggregated decisions are not ready and not safety-blocked leave the session
after the second call still unlocked and below the cap; after the third
call the step's retry counter has reached the fixed cap 3,
`exceeded_max_attempts` is true, and the orchestrator has locked the
session with the max-retries reason. -/
theorem C8_max_retry_lock (th : String → ℚ) (mgr : Mgr) (sid : String)
    (session : Session) (v₁ v₂ v₃ : List EvaluatorResponse)
    (h : getSession mgr sid = Option.some session)
    (hlocked : session.locked = false)
    (hzero : session.attempts session.current_step = 0)
    (_hnr : ∀ v ∈ [v₁, v₂, v₃],
      (Coordinator.aggregate th v session.current_step.value).decision.ready_for_next_step
        = false ∧
      (Coordinator.aggregate th v session.current_step.value).decision.safety_blocked
        = false) :
    ∃ s₂ s₃,
      getSession (session_step th (session_step th mgr
        ⟨sid, session.current_step.value, v₁⟩).snd
        ⟨sid, session.current_step.value, v₂⟩).snd sid = Option.some s₂ ∧
      s₂.locked = false ∧ exceeded_max_attempts s₂ = false ∧
      getSession (session_step th (session_step th (session_step th mgr
        ⟨sid, session.current_step.value, v₁⟩).snd
        ⟨sid, session.current_step.value, v₂⟩).snd
        ⟨sid, session.current_step.value, v₃⟩).snd sid = Option.some s₃ ∧
      s₃.locked = true ∧ exceeded_max_attempts s₃ = true ∧
      s₃.attempts s₃.current_step = 3 ∧
      s₃.lock_reason = Option.some "Maximum retries exceeded" := by
  have h1 := getSession_after_step th mgr sid session v₁ session.current_step.value
    h hlocked rfl
  have hex1 : exceeded_max_attempts (post_attempt_session th session v₁) = false := by
    rw [exceeded_max_attempts_eq, post_attempt_attempts, hzero]
    decide
  rw [hex1] at h1
  simp only [Bool.false_eq_true, if_false] at h1
  have hl1 : (post_attempt_session th session v₁).locked = false := by
    rw [post_attempt_locked]
    exact hlocked
  have ha1 : (post_attempt_session th session v₁).attempts
      (post_attempt_session th session v₁).current_step = 1 := by
    rw [post_attempt_attempts, hzero]
  have h2 := getSession_after_step th _ sid (post_attempt_session th session v₁) v₂
    session.current_step.value h1 hl1 (by rw [post_attempt_current_step])
  have hex2 : exceeded_max_attempts
      (post_attempt_session th (post_attempt_session th session v₁) v₂) = false := by
    rw [exceeded_max_attempts_eq, post_attempt_attempts, ha1]
    decide
  rw [hex2] at h2
  simp only [Bool.false_eq_true, if_false] at h2
  have hl2 : (post_attempt_session th (post_attempt_session th session v₁) v₂).locked
      = false := by
    rw [post_attempt_locked]
    exact hl1
  have ha2 : (post_attempt_session th (post_attempt_session th session v₁) v₂).attempts
      (post_attempt_session th (post_attempt_session th session v₁) v₂).current_step
      = 2 := by
    rw [post_attempt_attempts, ha1]
  have h3 := getSession_after_step th _ sid
    (post_attempt_session th (post_attempt_session th session v₁) v₂) v₃
    session.current_step.value h2 hl2
    (by rw [post_attempt_current_step, post_attempt_current_step])
  have hex3 : exceeded_max_attempts
      (post_attempt_session th
        (post_attempt_session th (post_attempt_session th session v₁) v₂) v₃) = true := by
    rw [exceeded_max_attempts_eq, post_attempt_attempts, ha2]
    decide
  rw [hex3] at h3
  simp only [if_true] at h3
  refine ⟨post_attempt_session th (post_attempt_session th session v₁) v₂,
    lock_session (post_attempt_session th
      (post_attempt_session th (post_attempt_session th session v₁) v₂) v₃)
      "Maximum retries exceeded",
    h2, hl2, hex2, h3, lock_session_locked _ _, ?_, ?_, lock_session_reason _ _⟩
  · rw [exceeded_lock_session]
    exact hex3
  · rw [lock_session_attempts, lock_session_current_step, post_attempt_attempts, ha2]

/-- Witness for C8: three concrete not-ready submissions on HISTORY lock
the session with the max-retries reason. -/
theorem C8_max_retry_lock_witness :
    (∀ v ∈ [notReadyVerdicts, notReadyVerdicts, notReadyVerdicts],
      (Coordinator.aggregate (fun _ => 7/10) v "HISTORY").decision.ready_for_next_step
        = false ∧
      (Coordinator.aggregate (fun _ => 7/10) v "HISTORY").decision.safety_blocked
        = false) ∧
    ∃ s₂ s₃,
      getSession (session_step (fun _ => 7/10)
        (session_step (fun _ => 7/10) [("w8", sessionW8)]
          ⟨"w8", "HISTORY", notReadyVerdicts⟩).snd
        ⟨"w8", "HISTORY", notReadyVerdicts⟩).snd "w8" = Option.some s₂ ∧
      s₂.locked = false ∧ exceeded_max_attempts s₂ = false ∧
      getSession (session_step (fun _ => 7/10)
        (session_step (fun _ => 7/10) (session_step (fun _ => 7/10) [("w8", sessionW8)]
          ⟨"w8", "HISTORY", notReadyVerdicts⟩).snd
          ⟨"w8", "HISTORY", notReadyVerdicts⟩).snd
        ⟨"w8", "HISTORY", notReadyVerdicts⟩).snd "w8" = Option.some s₃ ∧
      s₃.locked = true ∧ exceeded_max_attempts s₃ = true ∧
      s₃.attempts s₃.current_step = 3 ∧
      s₃.lock_reason = Option.some "Maximum retries exceeded" := by
  have hd : (Coordinator.aggregate (fun _ => 7/10)
        notReadyVerdicts "HISTORY").decision.ready_for_next_step = false ∧
      (Coordinator.aggregate (fun _ => 7/10)
        notReadyVerdicts "HISTORY").decision.safety_blocked = false := by
    constructor
    · simp [Coordinator.aggregate, safetyBlocked, check_readiness, aggregate_scores,
        composite_raw, score_single_evaluation, VERDICT_SCORE_MAP, STEP_WEIGHTS, round3,
        notReadyVerdicts]
      rw [if_neg (by norm_num)]
    · simp [Coordinator.aggregate, safetyBlocked, notReadyVerdicts]
  have hnr : ∀ v ∈ [notReadyVerdicts, notReadyVerdicts, notReadyVerdicts],
      (Coordinator.aggregate (fun _ => 7/10) v "HISTORY").decision.ready_for_next_step
        = false ∧
      (Coordinator.aggregate (fun _ => 7/10) v "HISTORY").decision.safety_blocked
        = false := by
    intro v hv
    rcases List.mem_cons.mp hv with rfl | hv2
    · exact hd
    rcases List.mem_cons.mp hv2 with rfl | hv3
    · exact hd
    rcases List.mem_cons.mp hv3 with rfl | hv4
    · exact hd
    · simp at hv4
  exact ⟨hnr, C8_max_retry_lock (fun _ => 7/10) [("w8", sessionW8)] "w8" sessionW8
    notReadyVerdicts notReadyVerdicts notReadyVerdicts rfl rfl rfl hnr⟩
